import Mathlib

/-!
Verification of the grid drawing widget (`GridDrawingApp` / `RectangleDrawer`,
`script.js`).  The JavaScript is shallowly embedded: DOM nodes become entries
of an association list keyed by a creation id (modelling object identity),
the SVG surface becomes the ordered list of child ids, numbers that flow
through `parseInt` become `ℤ`, continuous mouse coordinates become `ℚ`, and
the path `d` attribute string becomes a list of drawing commands.
-/

/-- A snapped point, as produced by `snapToGrid`.  Both coordinates are the
integers written into the SVG attributes. -/
structure GridPoint where
  x : ℤ
  y : ℤ
deriving DecidableEq, Repr

/-- JavaScript `Math.round`: round to the nearest integer, with exact halves
going toward positive infinity (`Math.round(x) = ⌊x + 0.5⌋`). -/
def jsRound (q : ℚ) : ℤ := ⌊q + 1 / 2⌋

/-- One axis of `GridDrawingApp.snapToGrid`:
`Math.round(v / gridSize) * gridSize`. -/
def snapAxis (v : ℚ) (g : ℤ) : ℤ := jsRound (v / (g : ℚ)) * g

/-- `GridDrawingApp.snapToGrid(x, y)`: snap each coordinate independently to
a multiple of the configured grid size. -/
def snapToGrid (x y : ℚ) (g : ℤ) : GridPoint :=
  { x := snapAxis x g, y := snapAxis y g }

/-- One textual command of an SVG path `d` attribute: `M x,y`, `L x,y` or
`Q cx,cy x,y`.  `generateSmoothPath` builds its output string by appending
exactly one such command at a time, so the string is modelled as the list of
its commands (the empty string being `[]`). -/
inductive SegCmd where
  | moveTo (p : GridPoint)
  | lineTo (p : GridPoint)
  | quadTo (c p : GridPoint)
deriving DecidableEq, Repr

/-- The `isHorizThenVert` test of `generateSmoothPath`:
`(prev.y === current.y && current.x === next.x) ||
 (prev.x === current.x && current.y === next.y)`. -/
def cornerAt (prev c n : GridPoint) : Bool :=
  (prev.y == c.y && c.x == n.x) || (prev.x == c.x && c.y == n.y)

/-- The `for` loop of `GridDrawingApp.generateSmoothPath`, starting at index
`i` (the JavaScript loop starts at `i = 1`).  The corner branch emits an `L`
and a `Q` command whose control point is the corner itself, then advances by
two (the `i++` inside the loop body skips the consumed successor). -/
def genLoop (points : List GridPoint) (i : ℕ) : List SegCmd :=
  if h : i < points.length then
    let current := points.getD i ⟨0, 0⟩
    let prev := points.getD (i - 1) ⟨0, 0⟩
    if i < points.length - 1 then
      let next := points.getD (i + 1) ⟨0, 0⟩
      if cornerAt prev current next then
        SegCmd.lineTo current :: SegCmd.quadTo current next :: genLoop points (i + 2)
      else
        SegCmd.lineTo current :: genLoop points (i + 1)
    else
      SegCmd.lineTo current :: genLoop points (i + 1)
  else []
termination_by points.length - i
decreasing_by all_goals omega

/-- `GridDrawingApp.generateSmoothPath(points)`: the empty string for fewer
than two points, otherwise a move to the first point followed by the loop
over the remaining points. -/
def generateSmoothPath (points : List GridPoint) : List SegCmd :=
  if points.length < 2 then []
  else SegCmd.moveTo (points.getD 0 ⟨0, 0⟩) :: genLoop points 1

/-- Structural description of the walk performed by `generateSmoothPath`,
carrying the predecessor point: an interior corner point is emitted as a
straight segment plus a quadratic curve (control point the corner itself)
ending at its successor, which is skipped; every other interior point and
the final point is a plain straight segment. -/
def smoothWalk : GridPoint → List GridPoint → List SegCmd
  | _, [] => []
  | _, [c] => [SegCmd.lineTo c]
  | prev, c :: n :: rest =>
    if cornerAt prev c n then
      SegCmd.lineTo c :: SegCmd.quadTo c n :: smoothWalk n rest
    else
      SegCmd.lineTo c :: smoothWalk c (n :: rest)

/-- Style attributes of an SVG `path` element as set by `startPath`:
`stroke`, `stroke-width`, the optional `stroke-dasharray` (set only when the
dashed checkbox is on) and the path data `d`.  The constant attributes
(`fill="none"`, `stroke-linecap`, `stroke-linejoin`) are omitted. -/
structure PathAttrs where
  stroke : String
  strokeWidth : ℤ
  dashArray : Option ℤ
  d : List SegCmd
deriving DecidableEq

/-- Attributes of an SVG `rect` element as set by `startDrawing` and
`drawRectangle`. -/
structure RectAttrs where
  x : ℤ
  y : ℤ
  width : ℤ
  height : ℤ
  fill : String
  stroke : String
  strokeWidth : ℤ
deriving DecidableEq

/-- The kinds of DOM nodes the widget creates: the grid `g` group, path
elements, rectangle elements and text labels. -/
inductive ElemKind where
  | gridGroup
  | path (a : PathAttrs)
  | rect (r : RectAttrs)
  | text
deriving DecidableEq

/-- The node store: each created DOM node is an entry keyed by a creation id
(modelling JavaScript object identity); new nodes are prepended.  Lookup
returns the first entry with the given id. -/
def lookupKind : List (ℕ × ElemKind) → ℕ → Option ElemKind
  | [], _ => none
  | e :: rest, i => if i = e.1 then some e.2 else lookupKind rest i

/-- `currentPath.setAttribute('d', ...)`: update the path data of the node
`pid`, leaving its other attributes and every other node unchanged. -/
def setPathD (es : List (ℕ × ElemKind)) (pid : ℕ) (d : List SegCmd) :
    List (ℕ × ElemKind) :=
  es.map fun e =>
    if e.1 = pid then
      (e.1, match e.2 with
        | ElemKind.path a => ElemKind.path { a with d := d }
        | k => k)
    else e

/-- Replace the attributes of the rectangle node `rid` (the four
`setAttribute` calls of `drawRectangle`). -/
def setRect (es : List (ℕ × ElemKind)) (rid : ℕ) (r : RectAttrs) :
    List (ℕ × ElemKind) :=
  es.map fun e =>
    if e.1 = rid then
      (e.1, match e.2 with
        | ElemKind.rect _ => ElemKind.rect r
        | k => k)
    else e

/-- Does the node `cid` answer to the selector `path` (the
`querySelectorAll('path')` test)? -/
def isPathElem (es : List (ℕ × ElemKind)) (cid : ℕ) : Bool :=
  match lookupKind es cid with
  | some (ElemKind.path _) => true
  | _ => false

/-- Does the node `cid` answer to the tag name `rect` (the
`getElementsByTagName('rect')` test)? -/
def isRectElem (es : List (ℕ × ElemKind)) (cid : ℕ) : Bool :=
  match lookupKind es cid with
  | some (ElemKind.rect _) => true
  | _ => false

/-- `svgElement.removeChild(node)`: removes the child and returns the new
child list, or fails (a thrown `NotFoundError`, modelled as `none`) when the
node is not among the children. -/
def removeChild (children : List ℕ) (cid : ℕ) : Option (List ℕ) :=
  if cid ∈ children then some (children.erase cid) else none

/-- The externally owned style controls read by `startPath` / `drawGrid`
(`this.settings`, refreshed by the `update*` handlers). -/
structure Settings where
  gridSize : ℤ
  lineColor : String
  lineThickness : ℤ
  isDashed : Bool
  dashArray : ℤ
deriving DecidableEq

/-- The combined mutable state of `GridDrawingApp` and `RectangleDrawer`
sharing one SVG surface: the node store, the ordered child list of the SVG
element, the path-drawing state, the path history, the drawing-mode toggle
(`ToggleManager.currentType`), the rectangle-drawing state and the rectangle
undo stack, plus the two rectangle color pickers. -/
structure Model where
  settings : Settings
  elems : List (ℕ × ElemKind)
  svgChildren : List ℕ
  nextId : ℕ
  currentPath : Option ℕ
  pathPoints : List GridPoint
  lastGridPoint : Option GridPoint
  pathHistory : List ℕ
  isDrawing : Bool
  mode : String
  currentRect : Option ℕ
  selectedRect : Option ℕ
  undoStack : List ℕ
  rdIsDrawing : Bool
  bgColorPicker : String
  borderColorPicker : String
deriving DecidableEq

/-- `GridDrawingApp.startPath(x, y)`: snap the point, create a path node
carrying a snapshot of the current settings (dash array only when dashing is
enabled), reset the point sequence to that single point, remember it as the
last grid point, and append the node to the SVG children. -/
def startPath (m : Model) (x y : ℚ) : Model :=
  let gridPoint := snapToGrid x y m.settings.gridSize
  let pid := m.nextId
  let attrs : PathAttrs :=
    { stroke := m.settings.lineColor
      strokeWidth := m.settings.lineThickness
      dashArray := if m.settings.isDashed then some m.settings.dashArray else none
      d := [] }
  { m with
    nextId := pid + 1
    elems := (pid, ElemKind.path attrs) :: m.elems
    currentPath := some pid
    pathPoints := [gridPoint]
    lastGridPoint := some gridPoint
    svgChildren := m.svgChildren ++ [pid] }

/-- `GridDrawingApp.continuePath(x, y)`: no-op without a current path; snap
the point; ignore it when it equals the last grid point; when it differs in
both axes push one intermediate point first, horizontal-first when the
current sequence length is even, vertical-first when odd; then push the
snapped point, remember it, and rewrite the path's `d` attribute.  (When a
current path exists, `lastGridPoint` is always set — `startPath` set both —
so the `none` fallback is unreachable.) -/
def continuePath (m : Model) (x y : ℚ) : Model :=
  match m.currentPath with
  | none => m
  | some pid =>
    match m.lastGridPoint with
    | none => m
    | some last =>
      let gridPoint := snapToGrid x y m.settings.gridSize
      if gridPoint.x ≠ last.x ∨ gridPoint.y ≠ last.y then
        let pts1 :=
          if 0 < |gridPoint.x - last.x| ∧ 0 < |gridPoint.y - last.y| then
            let intermediatePoint :=
              if m.pathPoints.length % 2 = 0 then
                GridPoint.mk gridPoint.x last.y
              else
                GridPoint.mk last.x gridPoint.y
            m.pathPoints ++ [intermediatePoint]
          else m.pathPoints
        let pts := pts1 ++ [gridPoint]
        { m with
          pathPoints := pts
          lastGridPoint := some gridPoint
          elems := setPathD m.elems pid (generateSmoothPath pts) }
      else m

/-- `GridDrawingApp.endPath()`: push the current path (if any) onto the
history, then clear the in-progress state unconditionally. -/
def endPath (m : Model) : Model :=
  match m.currentPath with
  | some pid =>
    { m with
      pathHistory := m.pathHistory ++ [pid]
      currentPath := none
      pathPoints := []
      lastGridPoint := none }
  | none =>
    { m with currentPath := none, pathPoints := [], lastGridPoint := none }

/-- `GridDrawingApp.undoLastPath()`: bail out unless the toggle reports
`"line"`; then, if the history is non-empty, pop its last entry and remove
that node from the SVG children (`removeChild` throws — `none` — if the
node is not a child). -/
def undoLastPath (m : Model) : Option Model :=
  if m.mode ≠ "line" then some m
  else
    match m.pathHistory.getLast? with
    | none => some m
    | some pid =>
      (removeChild m.svgChildren pid).map fun ch =>
        { m with pathHistory := m.pathHistory.dropLast, svgChildren := ch }

/-- `GridDrawingApp.clearAllPaths()`: `removeChild` every node matching the
selector `path`, then empty the path history. -/
def clearAllPaths (m : Model) : Model :=
  let paths := m.svgChildren.filter fun cid => isPathElem m.elems cid
  { m with
    svgChildren := paths.foldl (fun ch cid => ch.erase cid) m.svgChildren
    pathHistory := [] }

/-- `updateLineColor()`: refresh the color setting from its control (the
control's value is passed as the argument). -/
def updateLineColor (m : Model) (v : String) : Model :=
  { m with settings := { m.settings with lineColor := v } }

/-- `updateLineThickness()`: refresh the thickness setting from its control
(the text label it also rewrites is presentation only). -/
def updateLineThickness (m : Model) (v : ℤ) : Model :=
  { m with settings := { m.settings with lineThickness := v } }

/-- `updateDashedLine()`: refresh the dashed flag from its checkbox (the
dash-settings group it shows or hides is presentation only). -/
def updateDashedLine (m : Model) (b : Bool) : Model :=
  { m with settings := { m.settings with isDashed := b } }

/-- `updateDashArray()`: refresh the dash length setting from its control. -/
def updateDashArray (m : Model) (v : ℤ) : Model :=
  { m with settings := { m.settings with dashArray := v } }

/-- `RectangleDrawer.startDrawing(e)`: deselect any selected rectangle, snap
the pointer position (`getGridSnappedCoords` uses the app's grid size),
create a zero-sized rectangle there styled from the two color pickers, and
append it to the SVG children. -/
def startDrawing (m : Model) (x y : ℚ) : Model :=
  let p := snapToGrid x y m.settings.gridSize
  let rid := m.nextId
  { m with
    selectedRect := none
    rdIsDrawing := true
    nextId := rid + 1
    elems := (rid, ElemKind.rect
      { x := p.x, y := p.y, width := 0, height := 0
        fill := m.bgColorPicker, stroke := m.borderColorPicker
        strokeWidth := 2 }) :: m.elems
    currentRect := some rid
    svgChildren := m.svgChildren ++ [rid] }

/-- `RectangleDrawer.drawRectangle(e)`: no-op unless drawing; read the
anchor back from the current rectangle's own `x`/`y` attributes, then set
width/height to the absolute differences and x/y to the coordinate-wise
minima of the anchor and the newly snapped point. -/
def drawRectangle (m : Model) (x y : ℚ) : Model :=
  if m.rdIsDrawing = false then m
  else
    match m.currentRect with
    | none => m
    | some rid =>
      match lookupKind m.elems rid with
      | some (ElemKind.rect r) =>
        let p := snapToGrid x y m.settings.gridSize
        let width := |p.x - r.x|
        let height := |p.y - r.y|
        let newX := if p.x < r.x then p.x else r.x
        let newY := if p.y < r.y then p.y else r.y
        let r2 := { r with x := newX, y := newY, width := width, height := height }
        { m with elems := setRect m.elems rid r2 }
      | _ => m

/-- `RectangleDrawer.stopDrawing()`: no-op unless drawing; push the current
rectangle onto the undo stack only when both its width and height are
positive, then drop the current-rectangle reference.  (The text label
`update_text` attaches is presentation only and not modelled.) -/
def stopDrawing (m : Model) : Model :=
  if m.rdIsDrawing = false then m
  else
    match m.currentRect with
    | some rid =>
      match lookupKind m.elems rid with
      | some (ElemKind.rect r) =>
        if 0 < r.width ∧ 0 < r.height then
          { m with rdIsDrawing := false, undoStack := m.undoStack ++ [rid]
                   currentRect := none }
        else
          { m with rdIsDrawing := false, currentRect := none }
      | _ => { m with rdIsDrawing := false, currentRect := none }
    | none => { m with rdIsDrawing := false, currentRect := none }

/-- `RectangleDrawer.clearAllRects()`: `remove()` every element with tag
name `rect`; the undo stack is left untouched (the history-clearing lines
are commented out in the source). -/
def clearAllRects (m : Model) : Model :=
  let rects := m.svgChildren.filter fun cid => isRectElem m.elems cid
  { m with svgChildren := rects.foldl (fun ch cid => ch.erase cid) m.svgChildren }

/-- `RectangleDrawer.undoLastOperation()`: bail out when the toggle reports
`"line"`; no-op on an empty stack; otherwise pop the last rectangle and
remove it from the SVG children (`removeChild` throws — `none` — if it is
no longer a child), finally deselecting any selected rectangle. -/
def undoLastOperation (m : Model) : Option Model :=
  if m.mode = "line" then some m
  else
    match m.undoStack.getLast? with
    | none => some m
    | some rid =>
      (removeChild m.svgChildren rid).map fun ch =>
        { m with undoStack := m.undoStack.dropLast, svgChildren := ch
                 selectedRect := none }

/-- A drawing gesture: `startPath` at the start point followed by one
`continuePath` per pointer move. -/
def runGesture (m : Model) (s : ℚ × ℚ) (moves : List (ℚ × ℚ)) : Model :=
  moves.foldl (fun acc mv => continuePath acc mv.1 mv.2) (startPath m s.1 s.2)

/-- Adjacency relation of the in-progress point sequence: consecutive points
are distinct and agree on at least one axis (each segment is purely
horizontal or purely vertical). -/
def adjOk (p q : GridPoint) : Prop := p ≠ q ∧ (p.x = q.x ∨ p.y = q.y)

/-- Events that can happen after a path gesture began: pointer moves,
changes to any of the four style controls, and finishing the gesture. -/
inductive UiOp where
  | move (x y : ℚ)
  | setColor (c : String)
  | setThickness (v : ℤ)
  | setDashed (b : Bool)
  | setDashLen (v : ℤ)
  | finish

/-- Dispatch a `UiOp` to the handler it models. -/
def applyOp (m : Model) : UiOp → Model
  | UiOp.move x y => continuePath m x y
  | UiOp.setColor c => updateLineColor m c
  | UiOp.setThickness v => updateLineThickness m v
  | UiOp.setDashed b => updateDashedLine m b
  | UiOp.setDashLen v => updateDashArray m v
  | UiOp.finish => endPath m

/-- The style attributes carried by a path node, if the given node is one:
stroke color, stroke width and optional dash length — everything `startPath`
wrote except the mutable path data `d`. -/
def styleOfKind : Option ElemKind → Option (String × ℤ × Option ℤ)
  | some (ElemKind.path a) => some (a.stroke, a.strokeWidth, a.dashArray)
  | _ => none

/-- The style snapshot of the path node `pid`. -/
def styleOf (m : Model) (pid : ℕ) : Option (String × ℤ × Option ℤ) :=
  styleOfKind (lookupKind m.elems pid)

/-- The geometry attributes of the rectangle node `rid`. -/
def rectGeom (m : Model) (rid : ℕ) : Option (ℤ × ℤ × ℤ × ℤ) :=
  match lookupKind m.elems rid with
  | some (ElemKind.rect r) => some (r.x, r.y, r.width, r.height)
  | _ => none

/-- The freshly initialised widget (grid size 20, defaults as in the page),
used as the base state of the concrete scenarios. -/
def initModel : Model :=
  { settings :=
      { gridSize := 20, lineColor := "#000000", lineThickness := 2
        isDashed := false, dashArray := 5 }
    elems := []
    svgChildren := []
    nextId := 0
    currentPath := none
    pathPoints := []
    lastGridPoint := none
    pathHistory := []
    isDrawing := false
    mode := "box"
    currentRect := none
    selectedRect := none
    undoStack := []
    rdIsDrawing := false
    bgColorPicker := "#3498db"
    borderColorPicker := "#000000" }

/-- The attribute update a single `drawRectangle` move performs on the
current rectangle: x/y become the coordinate-wise minima of the snapped
point and the rectangle's stored corner, width/height the absolute
differences. -/
def bboxStep (p : GridPoint) (r : RectAttrs) : RectAttrs :=
  { r with
    x := if p.x < r.x then p.x else r.x
    y := if p.y < r.y then p.y else r.y
    width := |p.x - r.x|
    height := |p.y - r.y| }

/-- The invariant maintained while a gesture is in progress: the remembered
last grid point is the last element of the point sequence, and consecutive
points of the sequence satisfy `adjOk`. -/
def GestureInv (m : Model) : Prop :=
  m.lastGridPoint = m.pathPoints.getLast? ∧ List.Chain' adjOk m.pathPoints

/-- A state mid-gesture: one path begun at grid point (20, 20), matching
`startPath initModel 12 12`. -/
def gestureModel : Model :=
  { initModel with
    nextId := 1
    currentPath := some 0
    elems := [(0, ElemKind.path
      { stroke := "#000000", strokeWidth := 2, dashArray := none, d := [] })]
    svgChildren := [0]
    pathPoints := [⟨20, 20⟩]
    lastGridPoint := some ⟨20, 20⟩ }

/-- A state in line mode with two finalized paths (ids 7 and 9) in the
history and on the surface. -/
def lineHistModel : Model :=
  { initModel with mode := "line", pathHistory := [7, 9], svgChildren := [7, 9] }

/-- A state in box mode with one finalized path (id 3) in the history and on
the surface. -/
def boxHistModel : Model :=
  { initModel with pathHistory := [3], svgChildren := [3] }

/-- A state in box mode with one finished rectangle (id 0) rendered and on
the rectangle undo stack. -/
def rectStackModel : Model :=
  { initModel with
    nextId := 1
    elems := [(0, ElemKind.rect
      { x := 0, y := 0, width := 20, height := 20
        fill := "#3498db", stroke := "#000000", strokeWidth := 2 })]
    svgChildren := [0]
    undoStack := [0] }

/-- A state mid rectangle drag: rectangle 0 anchored at (100, 100) with zero
size, matching `startDrawing initModel 100 100`. -/
def rectDragModel : Model :=
  { initModel with
    nextId := 1
    rdIsDrawing := true
    currentRect := some 0
    elems := [(0, ElemKind.rect
      { x := 100, y := 100, width := 0, height := 0
        fill := "#3498db", stroke := "#000000", strokeWidth := 2 })]
    svgChildren := [0] }

theorem snapAxis_12_20 : snapAxis 12 20 = 20 := by norm_num [snapAxis, jsRound]

theorem snapAxis_35_20 : snapAxis 35 20 = 40 := by norm_num [snapAxis, jsRound]

theorem snapAxis_5_20 : snapAxis 5 20 = 0 := by norm_num [snapAxis, jsRound]

theorem snapAxis_neg10_20 : snapAxis (-10) 20 = 0 := by
  norm_num [snapAxis, jsRound]

theorem snapAxis_100_20 : snapAxis 100 20 = 100 := by
  norm_num [snapAxis, jsRound]

theorem snapAxis_60_20 : snapAxis 60 20 = 60 := by norm_num [snapAxis, jsRound]

theorem snapToGrid_12_12 : snapToGrid 12 12 20 = ⟨20, 20⟩ := by
  rw [snapToGrid, snapAxis_12_20]

theorem snapToGrid_35_5 : snapToGrid 35 5 20 = ⟨40, 0⟩ := by
  rw [snapToGrid, snapAxis_35_20, snapAxis_5_20]

theorem snapToGrid_100_100 : snapToGrid 100 100 20 = ⟨100, 100⟩ := by
  rw [snapToGrid, snapAxis_100_20]

theorem snapToGrid_60_60 : snapToGrid 60 60 20 = ⟨60, 60⟩ := by
  rw [snapToGrid, snapAxis_60_20]

theorem snapToGrid_35_5_x_ne : (snapToGrid 35 5 (20 : ℤ)).x ≠ 20 := by
  rw [snapToGrid_35_5]; decide

theorem snapToGrid_35_5_y_ne : (snapToGrid 35 5 (20 : ℤ)).y ≠ 20 := by
  rw [snapToGrid_35_5]; decide

theorem snapAxis_bounds (v : ℚ) (g : ℤ) (hg : 0 < g) :
    -((g : ℚ) / 2) < (snapAxis v g : ℚ) - v ∧ (snapAxis v g : ℚ) - v ≤ (g : ℚ) / 2 := by
  have hgQ : (0 : ℚ) < (g : ℚ) := by exact_mod_cast hg
  have hne : (g : ℚ) ≠ 0 := ne_of_gt hgQ
  rw [snapAxis, jsRound]
  push_cast
  set q : ℚ := v / (g : ℚ) with hq
  have h1 : ((⌊q + 1 / 2⌋ : ℤ) : ℚ) ≤ q + 1 / 2 := Int.floor_le _
  have h2 : q + 1 / 2 < (⌊q + 1 / 2⌋ : ℚ) + 1 := Int.lt_floor_add_one _
  have hv : q * (g : ℚ) = v := div_mul_cancel₀ v hne
  have h3 : (q - 1 / 2) * (g : ℚ) < ((⌊q + 1 / 2⌋ : ℤ) : ℚ) * g :=
    mul_lt_mul_of_pos_right (by linarith) hgQ
  have h4 : ((⌊q + 1 / 2⌋ : ℤ) : ℚ) * g ≤ (q + 1 / 2) * g :=
    mul_le_mul_of_nonneg_right h1 (le_of_lt hgQ)
  have e3 : (q - 1 / 2) * (g : ℚ) = v - g / 2 := by
    rw [sub_mul, hv]; ring
  have e4 : (q + 1 / 2) * (g : ℚ) = v + g / 2 := by
    rw [add_mul, hv]; ring
  constructor
  · rw [e3] at h3; linarith
  · rw [e4] at h4; linarith

theorem snapAxis_nearest_all (v : ℚ) (g : ℤ) (hg : 0 < g) (k : ℤ) :
    |v - (snapAxis v g : ℚ)| ≤ |v - (k : ℚ) * (g : ℚ)| := by
  obtain ⟨hlow, hhigh⟩ := snapAxis_bounds v g hg
  have hgQ : (0 : ℚ) < (g : ℚ) := by exact_mod_cast hg
  have habs : |v - (snapAxis v g : ℚ)| ≤ (g : ℚ) / 2 := by
    rw [abs_sub_comm]
    exact abs_le.mpr ⟨by linarith, hhigh⟩
  by_cases hk : k = jsRound (v / (g : ℚ))
  · have hs : (k : ℚ) * (g : ℚ) = ((snapAxis v g : ℤ) : ℚ) := by
      rw [snapAxis, hk]; push_cast; ring
    rw [hs]
  · have hne0 : k - jsRound (v / (g : ℚ)) ≠ 0 := sub_ne_zero.mpr hk
    have h1 : (1 : ℤ) ≤ |k - jsRound (v / (g : ℚ))| := Int.one_le_abs hne0
    have hdist : (g : ℚ) ≤ |(k : ℚ) * (g : ℚ) - (snapAxis v g : ℚ)| := by
      have hrw : (k : ℚ) * (g : ℚ) - (snapAxis v g : ℚ)
          = ((k - jsRound (v / (g : ℚ)) : ℤ) : ℚ) * (g : ℚ) := by
        rw [snapAxis]; push_cast; ring
      rw [hrw, abs_mul, abs_of_pos hgQ]
      have h1Q : (1 : ℚ) ≤ |((k - jsRound (v / (g : ℚ)) : ℤ) : ℚ)| := by
        rw [← Int.cast_abs]
        exact_mod_cast h1
      nlinarith
    have htri : |(k : ℚ) * (g : ℚ) - (snapAxis v g : ℚ)|
        ≤ |(k : ℚ) * (g : ℚ) - v| + |v - (snapAxis v g : ℚ)| := abs_sub_le _ _ _
    have hfar : (g : ℚ) / 2 ≤ |(k : ℚ) * (g : ℚ) - v| := by linarith
    calc |v - (snapAxis v g : ℚ)| ≤ (g : ℚ) / 2 := habs
      _ ≤ |(k : ℚ) * (g : ℚ) - v| := hfar
      _ = |v - (k : ℚ) * (g : ℚ)| := abs_sub_comm _ _

/-- C3 (amended): for every positive grid cell size, `snapToGrid` treats the
axes independently, and on each axis the result is a multiple of the cell
size at distance at most half a cell from the input — the nearest multiple —
with an exact tie resolved toward positive infinity (`Math.round` rounds
halves up, i.e. the snapped value sits at exactly `+g/2` in the tie case),
not away from zero as the claim states. -/
theorem snapToGrid_nearest_multiple (v : ℚ) (g : ℤ) (hg : 0 < g) :
    (∀ x y : ℚ, snapToGrid x y g = { x := snapAxis x g, y := snapAxis y g })
    ∧ (∃ k : ℤ, snapAxis v g = k * g)
    ∧ (-((g : ℚ) / 2) < (snapAxis v g : ℚ) - v ∧ (snapAxis v g : ℚ) - v ≤ (g : ℚ) / 2)
    ∧ ∀ k : ℤ, |v - (snapAxis v g : ℚ)| ≤ |v - (k : ℚ) * (g : ℚ)| :=
  ⟨fun _ _ => rfl, ⟨jsRound (v / (g : ℚ)), rfl⟩, snapAxis_bounds v g hg,
    snapAxis_nearest_all v g hg⟩

theorem snapToGrid_nearest_multiple_witness :
    (0 : ℤ) < 20
    ∧ ((∀ x y : ℚ, snapToGrid x y 20 = { x := snapAxis x 20, y := snapAxis y 20 })
      ∧ (∃ k : ℤ, snapAxis (-10) 20 = k * 20)
      ∧ (-(((20 : ℤ) : ℚ) / 2) < (snapAxis (-10) 20 : ℚ) - (-10)
          ∧ (snapAxis (-10) 20 : ℚ) - (-10) ≤ ((20 : ℤ) : ℚ) / 2)
      ∧ ∀ k : ℤ, |(-10 : ℚ) - (snapAxis (-10) 20 : ℚ)|
          ≤ |(-10 : ℚ) - (k : ℚ) * ((20 : ℤ) : ℚ)|) :=
  ⟨by decide, snapToGrid_nearest_multiple (-10) 20 (by decide)⟩

theorem genLoop_eq_walk :
    ∀ (n : ℕ) (pts : List GridPoint) (i : ℕ), pts.length - i ≤ n →
      genLoop pts i = smoothWalk (pts.getD (i - 1) ⟨0, 0⟩) (pts.drop i) := by
  intro n
  induction n with
  | zero =>
    intro pts i hle
    have h : ¬ i < pts.length := by omega
    rw [genLoop, dif_neg h, List.drop_eq_nil_of_le (by omega)]
    rfl
  | succ n ih =>
    intro pts i hle
    by_cases h : i < pts.length
    · have hdropi : pts.drop i = pts.getD i ⟨0, 0⟩ :: pts.drop (i + 1) := by
        rw [List.getD_eq_getElem _ _ h]
        exact List.drop_eq_getElem_cons h
      rw [genLoop, dif_pos h]
      dsimp only
      by_cases h2 : i < pts.length - 1
      · have hi1 : i + 1 < pts.length := by omega
        have hdropi1 : pts.drop (i + 1) = pts.getD (i + 1) ⟨0, 0⟩ :: pts.drop (i + 2) := by
          rw [List.getD_eq_getElem _ _ hi1]
          exact List.drop_eq_getElem_cons hi1
        rw [if_pos h2, hdropi, hdropi1]
        simp only [smoothWalk]
        by_cases hc :
            cornerAt (pts.getD (i - 1) ⟨0, 0⟩) (pts.getD i ⟨0, 0⟩) (pts.getD (i + 1) ⟨0, 0⟩)
        · rw [if_pos hc, if_pos hc, ih pts (i + 2) (by omega)]
          have he : i + 2 - 1 = i + 1 := by omega
          rw [he]
        · rw [if_neg hc, if_neg hc, ih pts (i + 1) (by omega), ← hdropi1]
          have he : i + 1 - 1 = i := by omega
          rw [he]
      · rw [if_neg h2, hdropi]
        have hdrop2 : pts.drop (i + 1) = [] := List.drop_eq_nil_of_le (by omega)
        rw [hdrop2]
        simp only [smoothWalk]
        rw [ih pts (i + 1) (by omega), hdrop2]
        rfl
    · rw [genLoop, dif_neg h, List.drop_eq_nil_of_le (by omega)]
      rfl

/-- C2: `generateSmoothPath` returns the empty command string for fewer than
two points; for at least two points it emits a move to the first point and
then walks the remaining points exactly as `smoothWalk` describes — an
interior point whose predecessor and successor satisfy the corner test
`(prev.y = cur.y ∧ cur.x = next.x) ∨ (prev.x = cur.x ∧ cur.y = next.y)` is
emitted as a straight segment to itself followed by one quadratic curve with
control point the corner itself and endpoint the successor, which is then
skipped; every other interior point and the final point is a plain straight
segment.  In particular a 2-point sequence yields exactly one move plus one
line segment. -/
theorem generateSmoothPath_spec :
    (∀ ps : List GridPoint, ps.length < 2 → generateSmoothPath ps = [])
    ∧ (∀ (p q : GridPoint) (rest : List GridPoint),
        generateSmoothPath (p :: q :: rest)
          = SegCmd.moveTo p :: smoothWalk p (q :: rest))
    ∧ ∀ a b : GridPoint,
        generateSmoothPath [a, b] = [SegCmd.moveTo a, SegCmd.lineTo b] := by
  have h2 : ∀ (p q : GridPoint) (rest : List GridPoint),
      generateSmoothPath (p :: q :: rest)
        = SegCmd.moveTo p :: smoothWalk p (q :: rest) := by
    intro p q rest
    have hlen : ¬ (p :: q :: rest).length < 2 := by
      simp only [List.length_cons]
      omega
    rw [generateSmoothPath, if_neg hlen,
      genLoop_eq_walk (p :: q :: rest).length (p :: q :: rest) 1 (by omega)]
    rfl
  refine ⟨?_, h2, ?_⟩
  · intro ps h
    rw [generateSmoothPath, if_pos h]
  · intro a b
    rw [h2 a b []]
    rfl

theorem generateSmoothPath_spec_witness :
    ([(⟨20, 20⟩ : GridPoint)].length < 2)
    ∧ generateSmoothPath [(⟨20, 20⟩ : GridPoint)] = [] :=
  ⟨by decide, generateSmoothPath_spec.1 [⟨20, 20⟩] (by decide)⟩

/-- C1: whenever a gesture is in progress and the newly snapped point
differs from the last recorded point in both axes, `continuePath` appends
exactly one intermediate point followed by the new point: with an even
current sequence length the intermediate is (new.x, old.y) (horizontal
first), with an odd length it is (old.x, new.y) (vertical first).
Concretely, beginning at raw (12,12) with grid size 20 and extending to raw
(35,5) yields the point sequence [(20,20), (20,0), (40,0)]. -/
theorem continuePath_diagonal_insert :
    (∀ (m : Model) (x y : ℚ) (pid : ℕ) (last : GridPoint),
      m.currentPath = some pid → m.lastGridPoint = some last →
      (snapToGrid x y m.settings.gridSize).x ≠ last.x →
      (snapToGrid x y m.settings.gridSize).y ≠ last.y →
      (continuePath m x y).pathPoints =
        m.pathPoints ++
          [(if m.pathPoints.length % 2 = 0 then
              GridPoint.mk (snapToGrid x y m.settings.gridSize).x last.y
            else
              GridPoint.mk last.x (snapToGrid x y m.settings.gridSize).y),
            snapToGrid x y m.settings.gridSize])
    ∧ (continuePath (startPath initModel 12 12) 35 5).pathPoints
        = [⟨20, 20⟩, ⟨20, 0⟩, ⟨40, 0⟩] := by
  have main : ∀ (m : Model) (x y : ℚ) (pid : ℕ) (last : GridPoint),
      m.currentPath = some pid → m.lastGridPoint = some last →
      (snapToGrid x y m.settings.gridSize).x ≠ last.x →
      (snapToGrid x y m.settings.gridSize).y ≠ last.y →
      (continuePath m x y).pathPoints =
        m.pathPoints ++
          [(if m.pathPoints.length % 2 = 0 then
              GridPoint.mk (snapToGrid x y m.settings.gridSize).x last.y
            else
              GridPoint.mk last.x (snapToGrid x y m.settings.gridSize).y),
            snapToGrid x y m.settings.gridSize] := by
    intro m x y pid last hcp hlast hx hy
    unfold continuePath
    rw [hcp, hlast]
    dsimp only
    rw [if_pos (Or.inl hx),
      if_pos ⟨abs_pos.mpr (sub_ne_zero.mpr hx), abs_pos.mpr (sub_ne_zero.mpr hy)⟩]
    dsimp only
    rw [List.append_assoc]
    rfl
  refine ⟨main, ?_⟩
  have hgs : (startPath initModel 12 12).settings.gridSize = 20 := rfl
  have hcp : (startPath initModel 12 12).currentPath = some 0 := rfl
  have hlast : (startPath initModel 12 12).lastGridPoint = some ⟨20, 20⟩ := by
    rw [show (startPath initModel 12 12).lastGridPoint
        = some (snapToGrid 12 12 20) from rfl, snapToGrid_12_12]
  have hpts : (startPath initModel 12 12).pathPoints = [⟨20, 20⟩] := by
    rw [show (startPath initModel 12 12).pathPoints
        = [snapToGrid 12 12 20] from rfl, snapToGrid_12_12]
  have hx : (snapToGrid 35 5 (startPath initModel 12 12).settings.gridSize).x
      ≠ (GridPoint.mk 20 20).x := by
    rw [hgs, snapToGrid_35_5]
    decide
  have hy : (snapToGrid 35 5 (startPath initModel 12 12).settings.gridSize).y
      ≠ (GridPoint.mk 20 20).y := by
    rw [hgs, snapToGrid_35_5]
    decide
  rw [main (startPath initModel 12 12) 35 5 0 ⟨20, 20⟩ hcp hlast hx hy,
    hpts, hgs, snapToGrid_35_5]
  norm_num

theorem continuePath_diagonal_insert_witness :
    (continuePath gestureModel 35 5).pathPoints =
      gestureModel.pathPoints ++
        [(if gestureModel.pathPoints.length % 2 = 0 then
            GridPoint.mk (snapToGrid 35 5 gestureModel.settings.gridSize).x
              (GridPoint.mk 20 20).y
          else
            GridPoint.mk (GridPoint.mk 20 20).x
              (snapToGrid 35 5 gestureModel.settings.gridSize).y),
          snapToGrid 35 5 gestureModel.settings.gridSize] :=
  continuePath_diagonal_insert.1 gestureModel 35 5 0 ⟨20, 20⟩ rfl rfl
    snapToGrid_35_5_x_ne snapToGrid_35_5_y_ne

theorem startPath_inv (m : Model) (x y : ℚ) : GestureInv (startPath m x y) := by
  unfold GestureInv
  constructor
  · simp [startPath]
  · exact List.chain'_singleton _

theorem continuePath_inv (m : Model) (x y : ℚ) (h : GestureInv m) :
    GestureInv (continuePath m x y) := by
  unfold GestureInv at h ⊢
  obtain ⟨hlast, hchain⟩ := h
  unfold continuePath
  cases hcp : m.currentPath with
  | none => exact ⟨hlast, hchain⟩
  | some pid =>
    cases hlg : m.lastGridPoint with
    | none => exact ⟨hlast, hchain⟩
    | some last =>
      dsimp only
      have hlastpts : m.pathPoints.getLast? = some last := by
        rw [← hlast]
        exact hlg
      by_cases hne : (snapToGrid x y m.settings.gridSize).x ≠ last.x
          ∨ (snapToGrid x y m.settings.gridSize).y ≠ last.y
      · rw [if_pos hne]
        by_cases hdiag : 0 < |(snapToGrid x y m.settings.gridSize).x - last.x|
            ∧ 0 < |(snapToGrid x y m.settings.gridSize).y - last.y|
        · rw [if_pos hdiag]
          have hx : (snapToGrid x y m.settings.gridSize).x ≠ last.x :=
            sub_ne_zero.mp (abs_pos.mp hdiag.1)
          have hy : (snapToGrid x y m.settings.gridSize).y ≠ last.y :=
            sub_ne_zero.mp (abs_pos.mp hdiag.2)
          constructor
          · dsimp only
            rw [List.getLast?_concat]
          · dsimp only
            rw [List.append_assoc, List.singleton_append]
            refine List.chain'_append.mpr ⟨hchain, ?_, ?_⟩
            · refine List.chain'_cons.mpr ⟨?_, List.chain'_singleton _⟩
              by_cases hpar : m.pathPoints.length % 2 = 0
              · rw [if_pos hpar]
                exact ⟨fun hcon => hy (congrArg GridPoint.y hcon).symm, Or.inl rfl⟩
              · rw [if_neg hpar]
                exact ⟨fun hcon => hx (congrArg GridPoint.x hcon).symm, Or.inr rfl⟩
            · intro a ha b hb
              rw [hlastpts] at ha
              simp only [Option.mem_some_iff] at ha
              simp only [List.head?_cons, Option.mem_some_iff] at hb
              subst ha
              subst hb
              by_cases hpar : m.pathPoints.length % 2 = 0
              · rw [if_pos hpar]
                exact ⟨fun hcon => hx (congrArg GridPoint.x hcon).symm, Or.inr rfl⟩
              · rw [if_neg hpar]
                exact ⟨fun hcon => hy (congrArg GridPoint.y hcon).symm, Or.inl rfl⟩
        · rw [if_neg hdiag]
          constructor
          · dsimp only
            rw [List.getLast?_concat]
          · dsimp only
            refine List.chain'_append.mpr ⟨hchain, List.chain'_singleton _, ?_⟩
            intro a ha b hb
            rw [hlastpts] at ha
            simp only [Option.mem_some_iff] at ha
            simp only [List.head?_cons, Option.mem_some_iff] at hb
            subst ha
            subst hb
            have hax : (snapToGrid x y m.settings.gridSize).x = last.x
                ∨ (snapToGrid x y m.settings.gridSize).y = last.y := by
              rcases not_and_or.mp hdiag with h1 | h1
              · exact Or.inl (sub_eq_zero.mp
                  (abs_eq_zero.mp (le_antisymm (not_lt.mp h1) (abs_nonneg _))))
              · exact Or.inr (sub_eq_zero.mp
                  (abs_eq_zero.mp (le_antisymm (not_lt.mp h1) (abs_nonneg _))))
            refine ⟨?_, ?_⟩
            · intro hcon
              rcases hne with h1 | h1
              · exact h1 (congrArg GridPoint.x hcon).symm
              · exact h1 (congrArg GridPoint.y hcon).symm
            · rcases hax with h1 | h1
              · exact Or.inl h1.symm
              · exact Or.inr h1.symm
      · rw [if_neg hne]
        exact ⟨hlast, hchain⟩

theorem foldl_moves_inv :
    ∀ (moves : List (ℚ × ℚ)) (m : Model), GestureInv m →
      GestureInv (moves.foldl (fun acc mv => continuePath acc mv.1 mv.2) m) := by
  intro moves
  induction moves with
  | nil => exact fun m h => h
  | cons mv rest ih => exact fun m h => ih _ (continuePath_inv m mv.1 mv.2 h)

theorem runGesture_inv (m : Model) (s : ℚ × ℚ) (moves : List (ℚ × ℚ)) :
    GestureInv (runGesture m s moves) :=
  foldl_moves_inv moves _ (startPath_inv m s.1 s.2)

/-- C4: along every gesture (a `startPath` followed by any sequence of
`continuePath` moves) the point sequence satisfies `adjOk` between all
consecutive points: they are never equal and they differ in at most one axis
(each segment is purely horizontal or purely vertical).  Moreover an extend
whose snapped point equals the last recorded point leaves the point
sequence unchanged. -/
theorem pathPoints_orthogonal_invariant :
    (∀ (m₀ : Model) (s : ℚ × ℚ) (moves : List (ℚ × ℚ)),
      List.Chain' adjOk (runGesture m₀ s moves).pathPoints)
    ∧ ∀ (m : Model) (x y : ℚ) (pid : ℕ) (last : GridPoint),
        m.currentPath = some pid → m.lastGridPoint = some last →
        snapToGrid x y m.settings.gridSize = last →
        (continuePath m x y).pathPoints = m.pathPoints := by
  constructor
  · intro m₀ s moves
    have h := runGesture_inv m₀ s moves
    unfold GestureInv at h
    exact h.2
  · intro m x y pid last hcp hlg hsnap
    unfold continuePath
    rw [hcp, hlg]
    dsimp only
    rw [hsnap, if_neg (by simp)]

theorem pathPoints_orthogonal_invariant_witness :
    List.Chain' adjOk (runGesture initModel (12, 12) [(35, 5)]).pathPoints
    ∧ (continuePath gestureModel 12 12).pathPoints = gestureModel.pathPoints :=
  ⟨pathPoints_orthogonal_invariant.1 initModel (12, 12) [(35, 5)],
   pathPoints_orthogonal_invariant.2 gestureModel 12 12 0 ⟨20, 20⟩ rfl rfl
     snapToGrid_12_12⟩

/-- C3 counterexample: the coordinate −10 with cell size 20 lies exactly
halfway between the multiples −20 and 0; rounding half away from zero would
pick −20 (the multiple of larger absolute value), but the code returns 0,
the multiple of smaller absolute value. -/
theorem snapAxis_tie_cex :
    snapAxis (-10) 20 = 0
    ∧ (-10 : ℚ) - (-20) = 10 ∧ (0 : ℚ) - (-10) = 10
    ∧ snapAxis (-10) 20 ≠ -20
    ∧ |(0 : ℤ)| < |(-20 : ℤ)| := by
  refine ⟨snapAxis_neg10_20, by norm_num, by norm_num, ?_, by decide⟩
  rw [snapAxis_neg10_20]
  decide

/-- C5: in line mode, when the history ends with a path `B` that is rendered
on the surface, one undo pops exactly `B` from the history and removes
exactly `B`'s node from the SVG children in the same operation (so after
`push A, push B` the history is left at `[A]`); an undo with an empty
history returns the state unchanged (a no-op, not a failure). -/
theorem undoLastPath_spec :
    (∀ (m : Model) (hs : List ℕ) (B : ℕ),
      m.mode = "line" → m.pathHistory = hs ++ [B] → B ∈ m.svgChildren →
      undoLastPath m
        = some { m with pathHistory := hs, svgChildren := m.svgChildren.erase B })
    ∧ ∀ m : Model, m.mode = "line" → m.pathHistory = [] →
        undoLastPath m = some m := by
  constructor
  · intro m hs B hmode hhist hmem
    unfold undoLastPath removeChild
    rw [if_neg (by simp [hmode]), hhist, List.getLast?_concat]
    dsimp only
    rw [if_pos hmem]
    dsimp only [Option.map]
    rw [List.dropLast_concat]
  · intro m hmode hhist
    unfold undoLastPath
    rw [if_neg (by simp [hmode]), hhist]
    rfl

theorem undoLastPath_spec_witness :
    lineHistModel.mode = "line"
    ∧ lineHistModel.pathHistory = [7] ++ [9]
    ∧ 9 ∈ lineHistModel.svgChildren
    ∧ undoLastPath lineHistModel
        = some { lineHistModel with
            pathHistory := [7], svgChildren := lineHistModel.svgChildren.erase 9 } :=
  ⟨rfl, rfl, by decide,
    undoLastPath_spec.1 lineHistModel [7] 9 rfl rfl (by decide)⟩

theorem foldl_erase_notMem {α : Type} [DecidableEq α] (x : α) :
    ∀ (es l : List α), x ∉ es →
      es.foldl (fun acc e => acc.erase e) (x :: l)
        = x :: es.foldl (fun acc e => acc.erase e) l := by
  intro es
  induction es with
  | nil => intro l _; rfl
  | cons e es ih =>
    intro l hx
    have hne : x ≠ e := fun h => hx (h ▸ List.mem_cons_self e es)
    dsimp only [List.foldl]
    rw [List.erase_cons, if_neg (by simp [hne])]
    exact ih _ (fun h => hx (List.mem_cons_of_mem _ h))

theorem foldl_erase_filter {α : Type} [DecidableEq α] (P : α → Bool) :
    ∀ l : List α,
      (l.filter P).foldl (fun acc e => acc.erase e) l
        = l.filter fun e => !P e := by
  intro l
  induction l with
  | nil => rfl
  | cons x t ih =>
    by_cases hP : P x
    · rw [List.filter_cons_of_pos hP]
      dsimp only [List.foldl]
      rw [List.erase_cons_head]
      rw [ih, List.filter_cons_of_neg (by simp [hP])]
    · rw [List.filter_cons_of_neg hP]
      rw [foldl_erase_notMem x _ t (fun h => hP (List.of_mem_filter h))]
      rw [ih, List.filter_cons_of_pos (by simp [hP])]

/-- C6: `clearAllPaths` removes exactly the children matching the selector
`path` from the surface — every non-path child (grid group, rectangles,
labels) survives in order, and no node's attributes are touched — and
empties the path history; the rectangle undo stack is untouched. -/
theorem clearAllPaths_spec (m : Model) :
    (clearAllPaths m).svgChildren
      = m.svgChildren.filter (fun cid => !(isPathElem m.elems cid))
    ∧ (clearAllPaths m).pathHistory = []
    ∧ (clearAllPaths m).elems = m.elems
    ∧ (clearAllPaths m).undoStack = m.undoStack := by
  refine ⟨?_, rfl, rfl, rfl⟩
  show (m.svgChildren.filter fun cid => isPathElem m.elems cid).foldl
      (fun ch cid => ch.erase cid) m.svgChildren = _
  exact foldl_erase_filter _ m.svgChildren

theorem styleOfKind_setPathD (es : List (ℕ × ElemKind)) (q : ℕ)
    (d : List SegCmd) (p : ℕ) :
    styleOfKind (lookupKind (setPathD es q d) p)
      = styleOfKind (lookupKind es p) := by
  induction es with
  | nil => rfl
  | cons e rest ih =>
    obtain ⟨i, k⟩ := e
    dsimp only [setPathD, List.map_cons]
    by_cases he : i = q
    · rw [if_pos he]
      dsimp only [lookupKind]
      by_cases hp : p = i
      · rw [if_pos hp, if_pos hp]
        cases k <;> rfl
      · rw [if_neg hp, if_neg hp]
        exact ih
    · rw [if_neg he]
      dsimp only [lookupKind]
      by_cases hp : p = i
      · rw [if_pos hp, if_pos hp]
      · rw [if_neg hp, if_neg hp]
        exact ih

/-- C7: the path node created by `startPath` carries a snapshot of the
settings at the moment drawing began — stroke color, stroke width and dash
state/length; afterwards, any interleaving of pointer moves, updates to the
color/thickness/dash controls and gesture finish leaves that snapshot (and,
by the frame property in the second conjunct, the style of every other
in-progress or finalized path node) unchanged. -/
theorem path_style_snapshot :
    (∀ (m₀ : Model) (x y : ℚ) (ops : List UiOp),
      styleOf (ops.foldl applyOp (startPath m₀ x y)) m₀.nextId
        = some (m₀.settings.lineColor, m₀.settings.lineThickness,
            if m₀.settings.isDashed then some m₀.settings.dashArray else none))
    ∧ ∀ (m : Model) (op : UiOp) (pid : ℕ),
        styleOf (applyOp m op) pid = styleOf m pid := by
  have hop : ∀ (m : Model) (op : UiOp) (pid : ℕ),
      styleOf (applyOp m op) pid = styleOf m pid := by
    intro m op pid
    cases op with
    | move x y =>
      show styleOf (continuePath m x y) pid = styleOf m pid
      unfold continuePath
      cases m.currentPath with
      | none => rfl
      | some q =>
        cases m.lastGridPoint with
        | none => rfl
        | some last =>
          dsimp only
          by_cases hne : (snapToGrid x y m.settings.gridSize).x ≠ last.x
              ∨ (snapToGrid x y m.settings.gridSize).y ≠ last.y
          · rw [if_pos hne]
            exact styleOfKind_setPathD m.elems q _ pid
          · rw [if_neg hne]
    | setColor c => rfl
    | setThickness v => rfl
    | setDashed b => rfl
    | setDashLen v => rfl
    | finish =>
      show styleOf (endPath m) pid = styleOf m pid
      unfold endPath
      cases m.currentPath <;> rfl
  have hsnap : ∀ (m₀ : Model) (x y : ℚ),
      styleOf (startPath m₀ x y) m₀.nextId
        = some (m₀.settings.lineColor, m₀.settings.lineThickness,
            if m₀.settings.isDashed then some m₀.settings.dashArray else none) := by
    intro m₀ x y
    show styleOfKind (lookupKind ((m₀.nextId, _) :: m₀.elems) m₀.nextId) = _
    unfold lookupKind
    rw [if_pos rfl]
    rfl
  have hfold : ∀ (ops : List UiOp) (m : Model) (pid : ℕ),
      styleOf (ops.foldl applyOp m) pid = styleOf m pid := by
    intro ops
    induction ops with
    | nil => exact fun m pid => rfl
    | cons op rest ih => exact fun m pid => (ih _ _).trans (hop m op pid)
  exact ⟨fun m₀ x y ops => (hfold ops _ _).trans (hsnap m₀ x y), hop⟩

/-- C9 (implicit): `undoLastPath` is gated on the drawing mode — whenever
the toggle reports anything other than `"line"`, it returns the state
completely unchanged (history and surface included), even with a non-empty
history. -/
theorem undoLastPath_mode_guard (m : Model) (h : m.mode ≠ "line") :
    undoLastPath m = some m := by
  unfold undoLastPath
  rw [if_pos h]

theorem undoLastPath_mode_guard_witness :
    boxHistModel.mode ≠ "line" ∧ undoLastPath boxHistModel = some boxHistModel :=
  ⟨by decide, undoLastPath_mode_guard boxHistModel (by decide)⟩

/-- C10 (implicit): `clearAllRects` removes every rectangle element from the
surface while leaving the rectangle undo stack untouched; consequently, when
the stack is non-empty (its top being a rectangle node), the next
`undoLastOperation` in box mode pops an entry whose node is no longer a
child and the `removeChild` call throws (`none`) — the
history-mirrors-rendered correspondence is broken for rectangles across
clear. -/
theorem clearAllRects_stale_undo (m : Model) (rid : ℕ)
    (hmode : m.mode ≠ "line") (hlast : m.undoStack.getLast? = some rid)
    (hrect : isRectElem m.elems rid = true) :
    (clearAllRects m).undoStack = m.undoStack
    ∧ ((clearAllRects m).svgChildren.all
        fun cid => !(isRectElem m.elems cid)) = true
    ∧ undoLastOperation (clearAllRects m) = none := by
  have hch : (clearAllRects m).svgChildren
      = m.svgChildren.filter fun cid => !(isRectElem m.elems cid) := by
    show (m.svgChildren.filter fun cid => isRectElem m.elems cid).foldl
        (fun ch cid => ch.erase cid) m.svgChildren = _
    exact foldl_erase_filter _ m.svgChildren
  have hnotmem : rid ∉ (clearAllRects m).svgChildren := by
    rw [hch]
    intro hmem
    have hmm := (List.mem_filter.mp hmem).2
    simp [hrect] at hmm
  refine ⟨rfl, ?_, ?_⟩
  · rw [hch, List.all_eq_true]
    intro cid hmem
    exact (List.mem_filter.mp hmem).2
  · unfold undoLastOperation removeChild
    rw [show (clearAllRects m).mode = m.mode from rfl, if_neg hmode]
    rw [show (clearAllRects m).undoStack.getLast? = some rid from hlast]
    dsimp only
    rw [if_neg hnotmem]
    rfl

theorem clearAllRects_stale_undo_witness :
    rectStackModel.mode ≠ "line"
    ∧ rectStackModel.undoStack.getLast? = some 0
    ∧ isRectElem rectStackModel.elems 0 = true
    ∧ ((clearAllRects rectStackModel).undoStack = rectStackModel.undoStack
      ∧ ((clearAllRects rectStackModel).svgChildren.all
          fun cid => !(isRectElem rectStackModel.elems cid)) = true
      ∧ undoLastOperation (clearAllRects rectStackModel) = none) :=
  ⟨by decide, by decide, by decide,
    clearAllRects_stale_undo rectStackModel 0 (by decide) (by decide) (by decide)⟩


theorem lookupKind_setRect_self (es : List (ℕ × ElemKind)) (rid : ℕ)
    (r r2 : RectAttrs) (h : lookupKind es rid = some (ElemKind.rect r)) :
    lookupKind (setRect es rid r2) rid = some (ElemKind.rect r2) := by
  induction es with
  | nil => simp [lookupKind] at h
  | cons e rest ih =>
    obtain ⟨i, k⟩ := e
    simp only [lookupKind] at h
    dsimp only [setRect, List.map_cons]
    by_cases hi : i = rid
    · rw [if_pos hi]
      simp only [lookupKind]
      rw [if_pos hi.symm] at h
      rw [if_pos hi.symm]
      injection h with h2
      rw [h2]
    · rw [if_neg hi]
      simp only [lookupKind]
      rw [if_neg (fun hp => hi hp.symm)] at h
      rw [if_neg (fun hp => hi hp.symm)]
      exact ih h

theorem drawRectangle_eq (m : Model) (x y : ℚ) (rid : ℕ) (r : RectAttrs)
    (hdraw : m.rdIsDrawing = true) (hcr : m.currentRect = some rid)
    (hlk : lookupKind m.elems rid = some (ElemKind.rect r)) :
    drawRectangle m x y
      = { m with
          elems := setRect m.elems rid (bboxStep (snapToGrid x y m.settings.gridSize) r) } := by
  unfold drawRectangle bboxStep
  rw [hdraw, if_neg (by simp), hcr]
  dsimp only
  rw [hlk]

theorem ite_lt_eq_min (a b : ℤ) : (if a < b then a else b) = min a b := by
  rcases lt_trichotomy a b with h | h | h
  · rw [if_pos h, min_eq_left h.le]
  · subst h
    rw [if_neg (lt_irrefl a), min_self]
  · rw [if_neg (not_lt.mpr h.le), min_eq_right h.le]

/-- C8 (amended): each pointer move sets the rectangle to the axis-aligned
bounding box between the rectangle's own stored corner (its current `x`/`y`
attributes) and the current snapped point — x/y the coordinate-wise minima,
width/height the absolute differences.  On the first move of a drag the
stored corner is the snapped drag-start point, so there the geometry is the
bounding box between drag start and current point (second conjunct); on
later moves the anchor is whatever corner the previous move stored, which
drifts once the pointer has moved up/left of the drag start, so the claimed
equality with the original drag-start point fails in general. -/
theorem drawRectangle_bbox :
    (∀ (m : Model) (x y : ℚ) (rid : ℕ) (r : RectAttrs),
      m.rdIsDrawing = true → m.currentRect = some rid →
      lookupKind m.elems rid = some (ElemKind.rect r) →
      rectGeom (drawRectangle m x y) rid
        = some (min (snapToGrid x y m.settings.gridSize).x r.x,
            min (snapToGrid x y m.settings.gridSize).y r.y,
            |(snapToGrid x y m.settings.gridSize).x - r.x|,
            |(snapToGrid x y m.settings.gridSize).y - r.y|))
    ∧ ∀ (m : Model) (x0 y0 x1 y1 : ℚ),
        rectGeom (drawRectangle (startDrawing m x0 y0) x1 y1) m.nextId
          = some (min (snapToGrid x1 y1 m.settings.gridSize).x
                (snapToGrid x0 y0 m.settings.gridSize).x,
              min (snapToGrid x1 y1 m.settings.gridSize).y
                (snapToGrid x0 y0 m.settings.gridSize).y,
              |(snapToGrid x1 y1 m.settings.gridSize).x
                - (snapToGrid x0 y0 m.settings.gridSize).x|,
              |(snapToGrid x1 y1 m.settings.gridSize).y
                - (snapToGrid x0 y0 m.settings.gridSize).y|) := by
  have main : ∀ (m : Model) (x y : ℚ) (rid : ℕ) (r : RectAttrs),
      m.rdIsDrawing = true → m.currentRect = some rid →
      lookupKind m.elems rid = some (ElemKind.rect r) →
      rectGeom (drawRectangle m x y) rid
        = some (min (snapToGrid x y m.settings.gridSize).x r.x,
            min (snapToGrid x y m.settings.gridSize).y r.y,
            |(snapToGrid x y m.settings.gridSize).x - r.x|,
            |(snapToGrid x y m.settings.gridSize).y - r.y|) := by
    intro m x y rid r hdraw hcr hlk
    rw [drawRectangle_eq m x y rid r hdraw hcr hlk]
    unfold rectGeom
    rw [show ({ m with
          elems := setRect m.elems rid (bboxStep (snapToGrid x y m.settings.gridSize) r) } : Model).elems
        = setRect m.elems rid (bboxStep (snapToGrid x y m.settings.gridSize) r) from rfl]
    rw [lookupKind_setRect_self m.elems rid r _ hlk]
    unfold bboxStep
    dsimp only
    rw [ite_lt_eq_min, ite_lt_eq_min]
  refine ⟨main, ?_⟩
  intro m x0 y0 x1 y1
  have hlk : lookupKind (startDrawing m x0 y0).elems m.nextId
      = some (ElemKind.rect
        { x := (snapToGrid x0 y0 m.settings.gridSize).x
          y := (snapToGrid x0 y0 m.settings.gridSize).y
          width := 0, height := 0
          fill := m.bgColorPicker, stroke := m.borderColorPicker
          strokeWidth := 2 }) := by
    show lookupKind ((m.nextId, _) :: m.elems) m.nextId = _
    unfold lookupKind
    rw [if_pos rfl]
  rw [main (startDrawing m x0 y0) x1 y1 m.nextId _ rfl rfl hlk]
  rfl

theorem drawRectangle_bbox_witness :
    rectDragModel.rdIsDrawing = true
    ∧ rectDragModel.currentRect = some 0
    ∧ lookupKind rectDragModel.elems 0 = some (ElemKind.rect
        { x := 100, y := 100, width := 0, height := 0
          fill := "#3498db", stroke := "#000000", strokeWidth := 2 })
    ∧ rectGeom (drawRectangle rectDragModel 60 60) 0
        = some (min (snapToGrid 60 60 rectDragModel.settings.gridSize).x 100,
            min (snapToGrid 60 60 rectDragModel.settings.gridSize).y 100,
            |(snapToGrid 60 60 rectDragModel.settings.gridSize).x - 100|,
            |(snapToGrid 60 60 rectDragModel.settings.gridSize).y - 100|) :=
  ⟨rfl, rfl, by decide,
    drawRectangle_bbox.1 rectDragModel 60 60 0
      ⟨100, 100, 0, 0, "#3498db", "#000000", 2⟩ rfl rfl (by decide)⟩

/-- C8 counterexample: drag started at raw (100,100) (snapped (100,100),
grid 20), pointer moved to (60,60) and then back to (100,100).  The claimed
bounding box between drag start and current point is (100, 100, 0, 0), but
the code leaves the rectangle at (60, 60, 40, 40) because the second move
measures from the drifted stored corner (60,60) instead of the drag start. -/
theorem drawRectangle_drift_cex :
    rectGeom (drawRectangle (drawRectangle
        (startDrawing initModel 100 100) 60 60) 100 100) 0
      = some (60, 60, 40, 40)
    ∧ ((60, 60, 40, 40) : ℤ × ℤ × ℤ × ℤ)
      ≠ (min 100 100, min 100 100, |(100 : ℤ) - 100|, |(100 : ℤ) - 100|) := by
  have h0 : lookupKind (startDrawing initModel 100 100).elems 0
      = some (ElemKind.rect ⟨100, 100, 0, 0, "#3498db", "#000000", 2⟩) := by
    show lookupKind ((0, ElemKind.rect
        ⟨(snapToGrid 100 100 20).x, (snapToGrid 100 100 20).y, 0, 0,
          "#3498db", "#000000", 2⟩) :: []) 0 = _
    rw [snapToGrid_100_100]
    rfl
  have h1 : drawRectangle (startDrawing initModel 100 100) 60 60
      = { (startDrawing initModel 100 100) with
          elems := setRect (startDrawing initModel 100 100).elems 0
            (bboxStep ⟨60, 60⟩ ⟨100, 100, 0, 0, "#3498db", "#000000", 2⟩) } := by
    rw [drawRectangle_eq (startDrawing initModel 100 100) 60 60 0
      ⟨100, 100, 0, 0, "#3498db", "#000000", 2⟩ rfl rfl h0]
    rw [show (startDrawing initModel 100 100).settings.gridSize = 20 from rfl,
      snapToGrid_60_60]
  have hb1 : bboxStep ⟨60, 60⟩ ⟨100, 100, 0, 0, "#3498db", "#000000", 2⟩
      = ⟨60, 60, 40, 40, "#3498db", "#000000", 2⟩ := by decide
  have h2 : lookupKind (drawRectangle
        (startDrawing initModel 100 100) 60 60).elems 0
      = some (ElemKind.rect ⟨60, 60, 40, 40, "#3498db", "#000000", 2⟩) := by
    rw [h1]
    dsimp only
    rw [lookupKind_setRect_self (startDrawing initModel 100 100).elems 0
      ⟨100, 100, 0, 0, "#3498db", "#000000", 2⟩ _ h0, hb1]
  have hd1 : (drawRectangle (startDrawing initModel 100 100) 60 60).rdIsDrawing
      = true := by
    rw [h1]
    rfl
  have hc1 : (drawRectangle (startDrawing initModel 100 100) 60 60).currentRect
      = some 0 := by
    rw [h1]
    rfl
  have h3 : drawRectangle (drawRectangle
        (startDrawing initModel 100 100) 60 60) 100 100
      = { (drawRectangle (startDrawing initModel 100 100) 60 60) with
          elems := setRect (drawRectangle
              (startDrawing initModel 100 100) 60 60).elems 0
            (bboxStep ⟨100, 100⟩ ⟨60, 60, 40, 40, "#3498db", "#000000", 2⟩) } := by
    rw [drawRectangle_eq (drawRectangle (startDrawing initModel 100 100) 60 60)
      100 100 0 ⟨60, 60, 40, 40, "#3498db", "#000000", 2⟩ hd1 hc1 h2]
    rw [show (drawRectangle
        (startDrawing initModel 100 100) 60 60).settings.gridSize = 20 from
      by rw [h1]; rfl, snapToGrid_100_100]
  have hb2 : bboxStep ⟨100, 100⟩ ⟨60, 60, 40, 40, "#3498db", "#000000", 2⟩
      = ⟨60, 60, 40, 40, "#3498db", "#000000", 2⟩ := by decide
  constructor
  · unfold rectGeom
    rw [h3]
    dsimp only
    rw [lookupKind_setRect_self (drawRectangle
        (startDrawing initModel 100 100) 60 60).elems 0
      ⟨60, 60, 40, 40, "#3498db", "#000000", 2⟩ _ h2, hb2]
  · decide
